import Mathlib

set_option maxHeartbeats 1000000
set_option linter.unusedVariables false

/-!
Shallow embedding of the hybridnet daemon subnet reconciler
(`src/pkg/daemon/controller/subnet.go`, `subnetReconciler.Reconcile`).

The reconciler's collaborators — the range parser, the per-family Route
Managers, the interface-name provisioner, the IPv6 capability check and the
multi-cluster feature gate — are not part of the sources; they are modelled
from the specification (each such definition is marked
`Modelled from the spec:`).  The reconcile pass itself is translated
statement by statement from the Go source.  All external effects are
recorded in an event trace so that ordering properties ("SyncRoutes is
never invoked after a staging failure", "ResetInfos precedes every Add")
are provable.  An `Except.error` result models the Go
`(reconcile.Result{Requeue: true}, err)` return; `Except.ok` models
`(reconcile.Result{}, nil)`.
-/

/-- IP address family; `Subnet.Spec.Range.Version` in the Go sources. -/
inductive IPVersion where
  | v4
  | v6
deriving DecidableEq, Repr

/-- `networkingv1.NetworkType`: Underlay or Overlay. -/
inductive NetworkType where
  | Underlay
  | Overlay
deriving DecidableEq, Repr

/-- Address width of each family. -/
def addrBits : IPVersion → Nat
  | .v4 => 32
  | .v6 => 128

/-- A canonical CIDR block: the network address together with the mask
length, tagged with its family.  Addresses are Nat values below
`2 ^ addrBits version`. -/
structure Cidr where
  version : IPVersion
  addr : Nat
  maskLen : Nat
deriving DecidableEq, Repr

/-- Number of addresses covered by the block. -/
def Cidr.blockSize (c : Cidr) : Nat := 2 ^ (addrBits c.version - c.maskLen)

/-- Whether an address lies inside the block. -/
def Cidr.containsIP (c : Cidr) (ip : Nat) : Bool :=
  decide (c.addr ≤ ip) && decide (ip < c.addr + c.blockSize)

/-- Two CIDR blocks overlap when either one covers the other's network
address. -/
def cidrOverlap (a b : Cidr) : Bool :=
  a.containsIP b.addr || b.containsIP a.addr

/-- The raw address-range descriptor carried by a Subnet or RemoteSubnet
(`spec.range` of §6 of the specification): declared version, CIDR, gateway,
start/end bounds and excluded addresses. -/
structure SubnetSpecRange where
  version : IPVersion
  cidrAddr : Nat
  cidrMaskLen : Nat
  gateway : Nat
  startIP : Nat
  endIP : Nat
  excludeIPs : List Nat
deriving DecidableEq, Repr

/-- The result of a successful range parse: canonical CIDR, gateway,
bounds, exclusions and the derived family (the Go caller discards the
family with `_`). -/
structure ParsedRangeMeta where
  subnetCidr : Cidr
  gatewayIP : Nat
  startIP : Nat
  endIP : Nat
  excludeIPs : List Nat
  version : IPVersion
deriving DecidableEq, Repr

/-- Modelled from the spec: `parseSubnetSpecRangeMeta` (§4.1 Range Parser),
whose Go body is not among the sources.  Validation performed: the CIDR is
a valid network of the declared IP version; the gateway lies inside the
CIDR; start ≤ end and both lie inside the CIDR; every excluded address
lies inside the CIDR.  Any violation fails with a `MalformedRange` error;
the function is pure and deterministic. -/
def parseSubnetSpecRangeMeta (r : SubnetSpecRange) : Except String ParsedRangeMeta :=
  let canon : Cidr :=
    ⟨r.version, r.cidrAddr - r.cidrAddr % (2 ^ (addrBits r.version - r.cidrMaskLen)),
      r.cidrMaskLen⟩
  if !(decide (r.cidrMaskLen ≤ addrBits r.version) &&
       decide (r.cidrAddr < 2 ^ addrBits r.version)) then
    .error "MalformedRange: invalid cidr"
  else if !(canon.containsIP r.gateway) then
    .error "MalformedRange: gateway outside cidr"
  else if !(decide (r.startIP ≤ r.endIP)) then
    .error "MalformedRange: start greater than end"
  else if !(canon.containsIP r.startIP && canon.containsIP r.endIP) then
    .error "MalformedRange: start or end outside cidr"
  else if !(r.excludeIPs.all canon.containsIP) then
    .error "MalformedRange: exclude ip outside cidr"
  else
    .ok ⟨canon, r.gateway, r.startIP, r.endIP, r.excludeIPs, r.version⟩

/-- A local subnet record staged in a Route Manager; the argument tuple of
`AddSubnetInfo` in the Go source. -/
structure SubnetInfo where
  subnetCidr : Cidr
  gatewayIP : Nat
  startIP : Nat
  endIP : Nat
  excludeIPs : List Nat
  forwardNodeIfName : String
  autoNatOutgoing : Bool
  isOverlay : Bool
  isUnderlayOnHost : Bool
deriving DecidableEq, Repr

/-- A peer-cluster subnet record; the argument tuple of
`AddRemoteSubnetInfo` in the Go source. -/
structure RemoteSubnetInfo where
  subnetCidr : Cidr
  gatewayIP : Nat
  startIP : Nat
  endIP : Nat
  excludeIPs : List Nat
  isOverlay : Bool
deriving DecidableEq, Repr

/-- Modelled from the spec: the desired-state storage of a Route Manager
(§4.3) — a set of SubnetInfo and a set of RemoteSubnetInfo, rebuilt from
empty on every resync cycle. -/
structure RouteManager where
  subnetInfos : List SubnetInfo
  remoteSubnetInfos : List RemoteSubnetInfo
deriving DecidableEq, Repr

/-- Modelled from the spec: `ResetInfos` clears both sets. -/
def RouteManager.ResetInfos (_ : RouteManager) : RouteManager := ⟨[], []⟩

/-- Modelled from the spec: `AddSubnetInfo` appends one local subnet
record to the desired set; no deduplication, cannot fail. -/
def RouteManager.AddSubnetInfo (m : RouteManager) (info : SubnetInfo) : RouteManager :=
  { m with subnetInfos := m.subnetInfos ++ [info] }

/-- Whether a CIDR collides with an already-registered local or remote
entry of this manager. -/
def RouteManager.hasOverlapping (m : RouteManager) (c : Cidr) : Bool :=
  m.subnetInfos.any (fun i => cidrOverlap i.subnetCidr c) ||
  m.remoteSubnetInfos.any (fun i => cidrOverlap i.subnetCidr c)

/-- Modelled from the spec: `AddRemoteSubnetInfo` appends one peer-cluster
record; fails with `RemoteSubnetConflict` if the CIDR collides with an
already-registered local or remote entry. -/
def RouteManager.AddRemoteSubnetInfo (m : RouteManager) (info : RemoteSubnetInfo) :
    Except String RouteManager :=
  if m.hasOverlapping info.subnetCidr then
    .error "RemoteSubnetConflict"
  else
    .ok { m with remoteSubnetInfos := m.remoteSubnetInfos ++ [info] }

/-- A `networkingv1.Network` object as the reconciler reads it:
`Spec.NetID`, the network type, and `Status.NodeList`. -/
structure Network where
  name : String
  netID : Option Nat
  netType : NetworkType
  nodeList : List String
deriving DecidableEq, Repr

/-- Modelled from the spec: `networkingv1.GetNetworkType` reads the
network's type field (∈ {Underlay, Overlay}). -/
def GetNetworkType (n : Network) : NetworkType := n.netType

/-- A `networkingv1.Subnet` object as the reconciler reads it:
`Spec.Network` (name reference), `Spec.NetID`, `Spec.Range` and the
auto-NAT-outgoing flag. -/
structure Subnet where
  name : String
  network : String
  netID : Option Nat
  range : SubnetSpecRange
  autoNatOutgoing : Bool
deriving DecidableEq, Repr

/-- Modelled from the spec: `networkingv1.IsSubnetAutoNatOutgoing` reads
the subnet's NAT flag. -/
def IsSubnetAutoNatOutgoing (s : Subnet) : Bool := s.autoNatOutgoing

/-- A `networkingv1.RemoteSubnet` object: a range plus its own
overlay/underlay type tag (no Network indirection). -/
structure RemoteSubnet where
  name : String
  range : SubnetSpecRange
  remoteType : NetworkType
deriving DecidableEq, Repr

/-- Modelled from the spec: `networkingv1.GetRemoteSubnetType` reads the
remote subnet's type tag. -/
def GetRemoteSubnetType (rs : RemoteSubnet) : NetworkType := rs.remoteType

/-- The daemon configuration fields the reconciler reads
(`r.ctrlHubRef.config`). -/
structure DaemonConfig where
  nodeName : String
  nodeVlanIfName : String
  nodeVxlanIfName : String
deriving DecidableEq, Repr

/-- One observable action of a reconcile pass, recorded in order. -/
inductive Event where
  | listSubnets
  | resetInfos (v : IPVersion)
  | ensureVlanIf (base : String) (netID : Option Nat)
  | addSubnetInfo (v : IPVersion) (info : SubnetInfo)
  | listRemoteSubnets
  | addRemoteSubnetInfo (v : IPVersion) (info : RemoteSubnetInfo)
  | syncRoutes (v : IPVersion)
  | iptablesSyncTrigger
deriving DecidableEq, Repr

/-- The environment of one pass: the cluster state store snapshots, the
feature gate, and the outcomes of the kernel-touching collaborator calls. -/
structure Env where
  subnetList : Except String (List Subnet)
  getNetwork : String → Option Network
  multiClusterEnabled : Bool
  remoteSubnetList : Except String (List RemoteSubnet)
  vlanIfError : String → Option Nat → Option String
  ipv6GlobalDisabled : Except String Bool
  syncRoutesError : IPVersion → Option String

/-- The mutable state a pass threads: both Route Managers
(`r.ctrlHubRef.routeV4Manager` / `routeV6Manager`) and the event trace. -/
structure HubState where
  routeV4Manager : RouteManager
  routeV6Manager : RouteManager
  trace : List Event
deriving Repr

/-- Modelled from the spec: `getRouterManager` selects the Route Manager
matching the range's IP version. -/
def getRouterManager (s : HubState) (v : IPVersion) : RouteManager :=
  match v with
  | .v4 => s.routeV4Manager
  | .v6 => s.routeV6Manager

/-- Write back the Route Manager of the given family. -/
def setRouterManager (s : HubState) (v : IPVersion) (m : RouteManager) : HubState :=
  match v with
  | .v4 => { s with routeV4Manager := m }
  | .v6 => { s with routeV6Manager := m }

/-- Record one event at the end of the trace. -/
def emit (s : HubState) (e : Event) : HubState :=
  { s with trace := s.trace ++ [e] }

/-- The deterministic VLAN sub-interface name for a base device and netID
tag (shared naming discipline of §4.2). -/
def vlanIfName (base : String) (netID : Option Nat) : String :=
  match netID with
  | none => base
  | some id => base ++ "." ++ toString id

/-- Modelled from the spec: `containernetwork.EnsureVlanIf` deterministically
names a VLAN sub-interface of the base device tagged with netID, creating
it on the host if absent; a kernel-level failure (supplied by the
environment) yields an error. -/
def EnsureVlanIf (env : Env) (base : String) (netID : Option Nat) : Except String String :=
  match env.vlanIfError base netID with
  | some e => .error e
  | none => .ok (vlanIfName base netID)

/-- Modelled from the spec: `containernetwork.GenerateVxlanNetIfName` is a
pure naming function for the overlay tunnel interface, creating nothing;
it fails only on an invalid (missing) netID. -/
def GenerateVxlanNetIfName (base : String) (netID : Option Nat) : Except String String :=
  match netID with
  | none => .error "invalid netID"
  | some id => .ok (base ++ "." ++ toString id)

/-- Lines 59–68 of `subnet.go`: true iff the network is Underlay and the
node's name occurs in the network's status node list. -/
def computeIsUnderlayOnHost (network : Network) (nodeName : String) : Bool :=
  if GetNetworkType network == NetworkType.Underlay then
    network.nodeList.contains nodeName
  else
    false

/-- Lines 72–75 of `subnet.go`: the subnet's own netID if set, else the
network's netID. -/
def resolveNetID (subnetNetID networkNetID : Option Nat) : Option Nat :=
  match subnetNetID with
  | none => networkNetID
  | some v => some v

/-- Lines 53–108 of `subnet.go`: process one subnet of the listed items —
resolve its Network, compute the underlay-membership flag, resolve the
netID, parse the range, branch on the network type (ensuring the VLAN
interface for a local underlay subnet, synthesizing the vxlan name for an
overlay subnet), and stage the resulting SubnetInfo in the Route Manager
selected by the range's version.  Errors abort with the Go error message;
the state reached so far (trace, managers) is kept, as the Go managers
are mutated in place. -/
def processSubnet (env : Env) (cfg : DaemonConfig) (subnet : Subnet) (s : HubState) :
    Except String Unit × HubState :=
  match env.getNetwork subnet.network with
  | none => (.error ("failed to get network for subnet " ++ subnet.name), s)
  | some network =>
    let isUnderlayOnHost := computeIsUnderlayOnHost network cfg.nodeName
    let netID := resolveNetID subnet.netID network.netID
    match parseSubnetSpecRangeMeta subnet.range with
    | .error e =>
      (.error ("failed to parse subnet " ++ subnet.name ++ " spec range meta: " ++ e), s)
    | .ok meta =>
      let branch : Except String (String × Bool × Bool) × HubState :=
        match GetNetworkType network with
        | .Underlay =>
          if isUnderlayOnHost then
            let s1 := emit s (.ensureVlanIf cfg.nodeVlanIfName netID)
            match EnsureVlanIf env cfg.nodeVlanIfName netID with
            | .error e =>
              (.error ("failed to ensure vlan forward node interface: " ++ e), s1)
            | .ok name => (.ok (name, false, false), s1)
          else
            (.ok ("", false, false), s)
        | .Overlay =>
          match GenerateVxlanNetIfName cfg.nodeVxlanIfName netID with
          | .error e =>
            (.error ("failed to generate vxlan forward node if name: " ++ e), s)
          | .ok name => (.ok (name, IsSubnetAutoNatOutgoing subnet, true), s)
      match branch with
      | (.error e, s1) => (.error e, s1)
      | (.ok (forwardNodeIfName, autoNatOutgoing, isOverlay), s1) =>
        let info : SubnetInfo :=
          ⟨meta.subnetCidr, meta.gatewayIP, meta.startIP, meta.endIP, meta.excludeIPs,
            forwardNodeIfName, autoNatOutgoing, isOverlay, isUnderlayOnHost⟩
        let v := subnet.range.version
        let s2 := emit s1 (.addSubnetInfo v info)
        (.ok (), setRouterManager s2 v ((getRouterManager s2 v).AddSubnetInfo info))

/-- The `for _, subnet := range subnetList.Items` loop: stops at the first
error. -/
def processSubnets (env : Env) (cfg : DaemonConfig) :
    List Subnet → HubState → Except String Unit × HubState
  | [], s => (.ok (), s)
  | subnet :: rest, s =>
    match processSubnet env cfg subnet s with
    | (.error e, s1) => (.error e, s1)
    | (.ok _, s1) => processSubnets env cfg rest s1

/-- Lines 118–134 of `subnet.go`: process one remote subnet — parse its
range, derive `isOverlay` from the remote type tag, and stage the
RemoteSubnetInfo in the Route Manager selected by the range's version;
a parse or registration failure aborts with the Go error message. -/
def processRemoteSubnet (env : Env) (rs : RemoteSubnet) (s : HubState) :
    Except String Unit × HubState :=
  match parseSubnetSpecRangeMeta rs.range with
  | .error e =>
    (.error ("failed to parse subnet " ++ rs.name ++ " spec range meta: " ++ e), s)
  | .ok meta =>
    let isOverlay := GetRemoteSubnetType rs == NetworkType.Overlay
    let info : RemoteSubnetInfo :=
      ⟨meta.subnetCidr, meta.gatewayIP, meta.startIP, meta.endIP, meta.excludeIPs, isOverlay⟩
    let v := rs.range.version
    let s1 := emit s (.addRemoteSubnetInfo v info)
    match (getRouterManager s1 v).AddRemoteSubnetInfo info with
    | .error e => (.error ("failed to add remote subnet info: " ++ e), s1)
    | .ok m => (.ok (), setRouterManager s1 v m)

/-- The `for _, remoteSubnet := range remoteSubnetList.Items` loop. -/
def processRemoteSubnets (env : Env) :
    List RemoteSubnet → HubState → Except String Unit × HubState
  | [], s => (.ok (), s)
  | rs :: rest, s =>
    match processRemoteSubnet env rs s with
    | (.error e, s1) => (.error e, s1)
    | (.ok _, s1) => processRemoteSubnets env rest s1

/-- Lines 45–135 of `subnet.go`: the staging phase of a pass — list the
subnets (failure aborts before anything else happens), reset both Route
Managers, stage every subnet, and, when multi-cluster federation is
enabled, list and stage every remote subnet. -/
def stagePass (env : Env) (cfg : DaemonConfig) (v4 v6 : RouteManager) :
    Except String Unit × HubState :=
  let s0 := emit ⟨v4, v6, []⟩ .listSubnets
  match env.subnetList with
  | .error e => (.error ("failed to list subnet " ++ e), s0)
  | .ok items =>
    let s1 := emit { s0 with routeV4Manager := s0.routeV4Manager.ResetInfos }
      (.resetInfos .v4)
    let s2 := emit { s1 with routeV6Manager := s1.routeV6Manager.ResetInfos }
      (.resetInfos .v6)
    match processSubnets env cfg items s2 with
    | (.error e, s3) => (.error e, s3)
    | (.ok _, s3) =>
      if env.multiClusterEnabled then
        let s4 := emit s3 .listRemoteSubnets
        match env.remoteSubnetList with
        | .error e => (.error ("failed to list remote subnet " ++ e), s4)
        | .ok remotes => processRemoteSubnets env remotes s4
      else
        (.ok (), s3)

/-- Lines 137–152 of `subnet.go`: the synchronization phase — sync the
IPv4 manager, check the host's IPv6-global-disabled capability, sync the
IPv6 manager unless IPv6 is globally disabled, and trigger the iptables
collaborator. -/
def syncPass (env : Env) (s : HubState) : Except String Unit × HubState :=
  let s1 := emit s (.syncRoutes .v4)
  match env.syncRoutesError .v4 with
  | some e => (.error ("failed to sync ipv4 routes: " ++ e), s1)
  | none =>
    match env.ipv6GlobalDisabled with
    | .error e => (.error ("failed to check ipv6 global disabled: " ++ e), s1)
    | .ok globalDisabled =>
      if !globalDisabled then
        let s2 := emit s1 (.syncRoutes .v6)
        match env.syncRoutesError .v6 with
        | some e => (.error ("failed to sync ipv6 routes: " ++ e), s2)
        | none => (.ok (), emit s2 .iptablesSyncTrigger)
      else
        (.ok (), emit s1 .iptablesSyncTrigger)

/-- The Go `reconcile.Result`: only the Requeue flag is ever set. -/
structure GoResult where
  requeue : Bool
deriving DecidableEq, Repr

/-- `subnetReconciler.Reconcile` (lines 41–155 of `subnet.go`): the whole
pass, as the staging phase followed by the synchronization phase.  The
first component models the Go return value: every error returns
`(reconcile.Result{Requeue: true}, err)`, success returns
`(reconcile.Result{}, nil)`. -/
def Reconcile (env : Env) (cfg : DaemonConfig) (v4 v6 : RouteManager) :
    (GoResult × Option String) × HubState :=
  match stagePass env cfg v4 v6 with
  | (.error e, s) => ((⟨true⟩, some e), s)
  | (.ok _, s) =>
    match syncPass env s with
    | (.error e, s1) => ((⟨true⟩, some e), s1)
    | (.ok _, s1) => ((⟨false⟩, none), s1)

/-- Event classifier: a `SyncRoutes` invocation. -/
def isSyncEvent : Event → Bool
  | .syncRoutes _ => true
  | _ => false

/-- Event classifier: a `ResetInfos` invocation. -/
def isResetEvent : Event → Bool
  | .resetInfos _ => true
  | _ => false

/-- Event classifier: an action of the remote-subnet (federation) phase. -/
def isRemoteEvent : Event → Bool
  | .listRemoteSubnets => true
  | .addRemoteSubnetInfo _ _ => true
  | _ => false

/-- Event classifier: an `Add*` event agrees with the family of the Route
Manager it targets (vacuously true for other events). -/
def addConsistent : Event → Bool
  | .addSubnetInfo v i => i.subnetCidr.version == v
  | .addRemoteSubnetInfo v i => i.subnetCidr.version == v
  | _ => true

/-- All records of a Route Manager belong to the given family. -/
def wellVersioned (m : RouteManager) (v : IPVersion) : Bool :=
  m.subnetInfos.all (fun i => i.subnetCidr.version == v) &&
  m.remoteSubnetInfos.all (fun i => i.subnetCidr.version == v)

/-- Events a local-subnet staging step may emit: interface provisioning and
family-consistent local adds. -/
def localStageEvent : Event → Bool
  | .ensureVlanIf _ _ => true
  | .addSubnetInfo v i => i.subnetCidr.version == v
  | _ => false

/-- Events the whole staging phase may emit after the two resets. -/
def stageTailEvent : Event → Bool
  | .ensureVlanIf _ _ => true
  | .addSubnetInfo v i => i.subnetCidr.version == v
  | .listRemoteSubnets => true
  | .addRemoteSubnetInfo v i => i.subnetCidr.version == v
  | _ => false

theorem emit_trace (s : HubState) (e : Event) : (emit s e).trace = s.trace ++ [e] := rfl

theorem emit_v4 (s : HubState) (e : Event) : (emit s e).routeV4Manager = s.routeV4Manager := rfl

theorem emit_v6 (s : HubState) (e : Event) : (emit s e).routeV6Manager = s.routeV6Manager := rfl

theorem setRouterManager_trace (s : HubState) (v : IPVersion) (m : RouteManager) :
    (setRouterManager s v m).trace = s.trace := by
  cases v <;> rfl

theorem setRouterManager_v4 (s : HubState) (m : RouteManager) :
    (setRouterManager s .v4 m).routeV4Manager = m := rfl

theorem setRouterManager_v4_of_v6 (s : HubState) (m : RouteManager) :
    (setRouterManager s .v6 m).routeV4Manager = s.routeV4Manager := rfl

theorem setRouterManager_v6 (s : HubState) (m : RouteManager) :
    (setRouterManager s .v6 m).routeV6Manager = m := rfl

theorem setRouterManager_v6_of_v4 (s : HubState) (m : RouteManager) :
    (setRouterManager s .v4 m).routeV6Manager = s.routeV6Manager := rfl

theorem parse_ok_version {r : SubnetSpecRange} {meta : ParsedRangeMeta}
    (h : parseSubnetSpecRangeMeta r = .ok meta) :
    meta.subnetCidr.version = r.version := by
  unfold parseSubnetSpecRangeMeta at h
  dsimp only at h
  split at h
  · simp at h
  split at h
  · simp at h
  split at h
  · simp at h
  split at h
  · simp at h
  split at h
  · simp at h
  injection h with h2
  subst h2
  rfl

theorem localStageEvent_stageTail {e : Event} (h : localStageEvent e = true) :
    stageTailEvent e = true := by
  cases e <;> simp_all [localStageEvent, stageTailEvent]

theorem stageTail_not_sync {e : Event} (h : stageTailEvent e = true) :
    isSyncEvent e = false := by
  cases e <;> simp_all [stageTailEvent, isSyncEvent]

theorem stageTail_not_reset {e : Event} (h : stageTailEvent e = true) :
    isResetEvent e = false := by
  cases e <;> simp_all [stageTailEvent, isResetEvent]

theorem stageTail_addConsistent {e : Event} (h : stageTailEvent e = true) :
    addConsistent e = true := by
  cases e <;> simp_all [stageTailEvent, addConsistent]

theorem localStage_not_remote {e : Event} (h : localStageEvent e = true) :
    isRemoteEvent e = false := by
  cases e <;> simp_all [localStageEvent, isRemoteEvent]

theorem all_imp_filter_nil {t : List Event} {p q : Event → Bool}
    (h : t.all p = true) (hpq : ∀ e, p e = true → q e = false) :
    t.filter q = [] := by
  induction t with
  | nil => rfl
  | cons a t ih =>
    simp only [List.all_cons, Bool.and_eq_true] at h
    simp [List.filter, hpq a h.1, ih h.2]

theorem getRouterManager_emit (s : HubState) (e : Event) (v : IPVersion) :
    getRouterManager (emit s e) v = getRouterManager s v := by
  cases v <;> rfl

theorem processSubnet_noNetwork (env : Env) (cfg : DaemonConfig) (subnet : Subnet)
    (s : HubState) (hg : env.getNetwork subnet.network = none) :
    processSubnet env cfg subnet s =
      (.error ("failed to get network for subnet " ++ subnet.name), s) := by
  simp [processSubnet, hg]

theorem processSubnet_parseErr (env : Env) (cfg : DaemonConfig) (subnet : Subnet)
    (s : HubState) (network : Network) (e : String)
    (hg : env.getNetwork subnet.network = some network)
    (hp : parseSubnetSpecRangeMeta subnet.range = .error e) :
    processSubnet env cfg subnet s =
      (.error ("failed to parse subnet " ++ subnet.name ++ " spec range meta: " ++ e), s) := by
  simp [processSubnet, hg, hp]

theorem processSubnet_underlay_local_vlanErr (env : Env) (cfg : DaemonConfig)
    (subnet : Subnet) (s : HubState) (network : Network) (meta : ParsedRangeMeta) (e : String)
    (hg : env.getNetwork subnet.network = some network)
    (hp : parseSubnetSpecRangeMeta subnet.range = .ok meta)
    (hT : GetNetworkType network = .Underlay)
    (hu : computeIsUnderlayOnHost network cfg.nodeName = true)
    (hv : env.vlanIfError cfg.nodeVlanIfName (resolveNetID subnet.netID network.netID) = some e) :
    processSubnet env cfg subnet s =
      (.error ("failed to ensure vlan forward node interface: " ++ e),
        emit s (.ensureVlanIf cfg.nodeVlanIfName (resolveNetID subnet.netID network.netID))) := by
  simp [processSubnet, hg, hp, hT, hu, EnsureVlanIf, hv]

theorem processSubnet_underlay_local_ok (env : Env) (cfg : DaemonConfig)
    (subnet : Subnet) (s : HubState) (network : Network) (meta : ParsedRangeMeta)
    (hg : env.getNetwork subnet.network = some network)
    (hp : parseSubnetSpecRangeMeta subnet.range = .ok meta)
    (hT : GetNetworkType network = .Underlay)
    (hu : computeIsUnderlayOnHost network cfg.nodeName = true)
    (hv : env.vlanIfError cfg.nodeVlanIfName (resolveNetID subnet.netID network.netID) = none) :
    processSubnet env cfg subnet s =
      (.ok (),
        let info : SubnetInfo :=
          ⟨meta.subnetCidr, meta.gatewayIP, meta.startIP, meta.endIP, meta.excludeIPs,
            vlanIfName cfg.nodeVlanIfName (resolveNetID subnet.netID network.netID),
            false, false, true⟩
        let s2 := emit
          (emit s (.ensureVlanIf cfg.nodeVlanIfName (resolveNetID subnet.netID network.netID)))
          (.addSubnetInfo subnet.range.version info)
        setRouterManager s2 subnet.range.version
          ((getRouterManager s2 subnet.range.version).AddSubnetInfo info)) := by
  simp [processSubnet, hg, hp, hT, hu, EnsureVlanIf, hv]

theorem processSubnet_underlay_nonlocal (env : Env) (cfg : DaemonConfig)
    (subnet : Subnet) (s : HubState) (network : Network) (meta : ParsedRangeMeta)
    (hg : env.getNetwork subnet.network = some network)
    (hp : parseSubnetSpecRangeMeta subnet.range = .ok meta)
    (hT : GetNetworkType network = .Underlay)
    (hu : computeIsUnderlayOnHost network cfg.nodeName = false) :
    processSubnet env cfg subnet s =
      (.ok (),
        let info : SubnetInfo :=
          ⟨meta.subnetCidr, meta.gatewayIP, meta.startIP, meta.endIP, meta.excludeIPs,
            "", false, false, false⟩
        let s2 := emit s (.addSubnetInfo subnet.range.version info)
        setRouterManager s2 subnet.range.version
          ((getRouterManager s2 subnet.range.version).AddSubnetInfo info)) := by
  simp [processSubnet, hg, hp, hT, hu]

theorem processSubnet_overlay_nameErr (env : Env) (cfg : DaemonConfig)
    (subnet : Subnet) (s : HubState) (network : Network) (meta : ParsedRangeMeta) (e : String)
    (hg : env.getNetwork subnet.network = some network)
    (hp : parseSubnetSpecRangeMeta subnet.range = .ok meta)
    (hT : GetNetworkType network = .Overlay)
    (hx : GenerateVxlanNetIfName cfg.nodeVxlanIfName
      (resolveNetID subnet.netID network.netID) = .error e) :
    processSubnet env cfg subnet s =
      (.error ("failed to generate vxlan forward node if name: " ++ e), s) := by
  simp [processSubnet, hg, hp, hT, hx]

theorem processSubnet_overlay_ok (env : Env) (cfg : DaemonConfig)
    (subnet : Subnet) (s : HubState) (network : Network) (meta : ParsedRangeMeta) (name : String)
    (hg : env.getNetwork subnet.network = some network)
    (hp : parseSubnetSpecRangeMeta subnet.range = .ok meta)
    (hT : GetNetworkType network = .Overlay)
    (hx : GenerateVxlanNetIfName cfg.nodeVxlanIfName
      (resolveNetID subnet.netID network.netID) = .ok name) :
    processSubnet env cfg subnet s =
      (.ok (),
        let info : SubnetInfo :=
          ⟨meta.subnetCidr, meta.gatewayIP, meta.startIP, meta.endIP, meta.excludeIPs,
            name, IsSubnetAutoNatOutgoing subnet, true,
            computeIsUnderlayOnHost network cfg.nodeName⟩
        let s2 := emit s (.addSubnetInfo subnet.range.version info)
        setRouterManager s2 subnet.range.version
          ((getRouterManager s2 subnet.range.version).AddSubnetInfo info)) := by
  simp [processSubnet, hg, hp, hT, hx]

theorem processRemoteSubnet_parseErr (env : Env) (rs : RemoteSubnet) (s : HubState)
    (e : String) (hp : parseSubnetSpecRangeMeta rs.range = .error e) :
    processRemoteSubnet env rs s =
      (.error ("failed to parse subnet " ++ rs.name ++ " spec range meta: " ++ e), s) := by
  simp [processRemoteSubnet, hp]

theorem processRemoteSubnet_conflict (env : Env) (rs : RemoteSubnet) (s : HubState)
    (meta : ParsedRangeMeta)
    (hp : parseSubnetSpecRangeMeta rs.range = .ok meta)
    (hc : (getRouterManager s rs.range.version).hasOverlapping meta.subnetCidr = true) :
    processRemoteSubnet env rs s =
      (.error ("failed to add remote subnet info: " ++ "RemoteSubnetConflict"),
        emit s (.addRemoteSubnetInfo rs.range.version
          ⟨meta.subnetCidr, meta.gatewayIP, meta.startIP, meta.endIP, meta.excludeIPs,
            GetRemoteSubnetType rs == NetworkType.Overlay⟩)) := by
  have hc2 : (getRouterManager (emit s (.addRemoteSubnetInfo rs.range.version
      ⟨meta.subnetCidr, meta.gatewayIP, meta.startIP, meta.endIP, meta.excludeIPs,
        GetRemoteSubnetType rs == NetworkType.Overlay⟩)) rs.range.version).hasOverlapping
      meta.subnetCidr = true := by
    rw [getRouterManager_emit]
    exact hc
  simp [processRemoteSubnet, hp, RouteManager.AddRemoteSubnetInfo, hc2]

theorem processRemoteSubnet_ok (env : Env) (rs : RemoteSubnet) (s : HubState)
    (meta : ParsedRangeMeta)
    (hp : parseSubnetSpecRangeMeta rs.range = .ok meta)
    (hc : (getRouterManager s rs.range.version).hasOverlapping meta.subnetCidr = false) :
    processRemoteSubnet env rs s =
      (.ok (),
        let info : RemoteSubnetInfo :=
          ⟨meta.subnetCidr, meta.gatewayIP, meta.startIP, meta.endIP, meta.excludeIPs,
            GetRemoteSubnetType rs == NetworkType.Overlay⟩
        let s1 := emit s (.addRemoteSubnetInfo rs.range.version info)
        setRouterManager s1 rs.range.version
          { getRouterManager s1 rs.range.version with
            remoteSubnetInfos :=
              (getRouterManager s1 rs.range.version).remoteSubnetInfos ++ [info] }) := by
  have hc2 : (getRouterManager (emit s (.addRemoteSubnetInfo rs.range.version
      ⟨meta.subnetCidr, meta.gatewayIP, meta.startIP, meta.endIP, meta.excludeIPs,
        GetRemoteSubnetType rs == NetworkType.Overlay⟩)) rs.range.version).hasOverlapping
      meta.subnetCidr = false := by
    rw [getRouterManager_emit]
    exact hc
  simp [processRemoteSubnet, hp, RouteManager.AddRemoteSubnetInfo, hc2]

theorem processSubnet_trace (env : Env) (cfg : DaemonConfig) (subnet : Subnet)
    (s : HubState) :
    ∃ t, (processSubnet env cfg subnet s).2.trace = s.trace ++ t ∧
      t.all localStageEvent = true := by
  cases hg : env.getNetwork subnet.network with
  | none =>
    rw [processSubnet_noNetwork env cfg subnet s hg]
    exact ⟨[], by simp, rfl⟩
  | some network =>
    cases hp : parseSubnetSpecRangeMeta subnet.range with
    | error e =>
      rw [processSubnet_parseErr env cfg subnet s network e hg hp]
      exact ⟨[], by simp, rfl⟩
    | ok meta =>
      have hver := parse_ok_version hp
      cases hT : GetNetworkType network with
      | Underlay =>
        cases hu : computeIsUnderlayOnHost network cfg.nodeName with
        | true =>
          cases hv : env.vlanIfError cfg.nodeVlanIfName
              (resolveNetID subnet.netID network.netID) with
          | some e =>
            rw [processSubnet_underlay_local_vlanErr env cfg subnet s network meta e
              hg hp hT hu hv]
            exact ⟨[.ensureVlanIf cfg.nodeVlanIfName (resolveNetID subnet.netID network.netID)],
              by simp [emit_trace], by simp [localStageEvent]⟩
          | none =>
            rw [processSubnet_underlay_local_ok env cfg subnet s network meta hg hp hT hu hv]
            refine ⟨[.ensureVlanIf cfg.nodeVlanIfName (resolveNetID subnet.netID network.netID),
              .addSubnetInfo subnet.range.version
                ⟨meta.subnetCidr, meta.gatewayIP, meta.startIP, meta.endIP, meta.excludeIPs,
                  vlanIfName cfg.nodeVlanIfName (resolveNetID subnet.netID network.netID),
                  false, false, true⟩], ?_, ?_⟩
            · simp [setRouterManager_trace, emit_trace]
            · simp [localStageEvent, hver]
        | false =>
          rw [processSubnet_underlay_nonlocal env cfg subnet s network meta hg hp hT hu]
          refine ⟨[.addSubnetInfo subnet.range.version
            ⟨meta.subnetCidr, meta.gatewayIP, meta.startIP, meta.endIP, meta.excludeIPs,
              "", false, false, false⟩], ?_, ?_⟩
          · simp [setRouterManager_trace, emit_trace]
          · simp [localStageEvent, hver]
      | Overlay =>
        cases hx : GenerateVxlanNetIfName cfg.nodeVxlanIfName
            (resolveNetID subnet.netID network.netID) with
        | error e =>
          rw [processSubnet_overlay_nameErr env cfg subnet s network meta e hg hp hT hx]
          exact ⟨[], by simp, rfl⟩
        | ok name =>
          rw [processSubnet_overlay_ok env cfg subnet s network meta name hg hp hT hx]
          refine ⟨[.addSubnetInfo subnet.range.version
            ⟨meta.subnetCidr, meta.gatewayIP, meta.startIP, meta.endIP, meta.excludeIPs,
              name, IsSubnetAutoNatOutgoing subnet, true,
              computeIsUnderlayOnHost network cfg.nodeName⟩], ?_, ?_⟩
          · simp [setRouterManager_trace, emit_trace]
          · simp [localStageEvent, hver]

theorem processSubnets_trace (env : Env) (cfg : DaemonConfig) (items : List Subnet)
    (s : HubState) :
    ∃ t, (processSubnets env cfg items s).2.trace = s.trace ++ t ∧
      t.all localStageEvent = true := by
  induction items generalizing s with
  | nil => exact ⟨[], by simp [processSubnets], rfl⟩
  | cons subnet rest ih =>
    obtain ⟨t1, ht1, ha1⟩ := processSubnet_trace env cfg subnet s
    cases hr : processSubnet env cfg subnet s with
    | mk res s1 =>
      rw [hr] at ht1
      cases res with
      | error e =>
        refine ⟨t1, ?_, ha1⟩
        simp only [processSubnets, hr]
        exact ht1
      | ok u =>
        obtain ⟨t2, ht2, ha2⟩ := ih s1
        refine ⟨t1 ++ t2, ?_, ?_⟩
        · simp only [processSubnets, hr]
          rw [ht2, show s1.trace = s.trace ++ t1 from ht1, List.append_assoc]
        · simp [List.all_append, ha1, ha2]

theorem processRemoteSubnet_trace (env : Env) (rs : RemoteSubnet) (s : HubState) :
    ∃ t, (processRemoteSubnet env rs s).2.trace = s.trace ++ t ∧
      t.all stageTailEvent = true := by
  cases hp : parseSubnetSpecRangeMeta rs.range with
  | error e =>
    rw [processRemoteSubnet_parseErr env rs s e hp]
    exact ⟨[], by simp, rfl⟩
  | ok meta =>
    have hver := parse_ok_version hp
    cases hc : (getRouterManager s rs.range.version).hasOverlapping meta.subnetCidr with
    | true =>
      rw [processRemoteSubnet_conflict env rs s meta hp hc]
      exact ⟨[.addRemoteSubnetInfo rs.range.version
        ⟨meta.subnetCidr, meta.gatewayIP, meta.startIP, meta.endIP, meta.excludeIPs,
          GetRemoteSubnetType rs == NetworkType.Overlay⟩],
        by simp [emit_trace], by simp [stageTailEvent, hver]⟩
    | false =>
      rw [processRemoteSubnet_ok env rs s meta hp hc]
      exact ⟨[.addRemoteSubnetInfo rs.range.version
        ⟨meta.subnetCidr, meta.gatewayIP, meta.startIP, meta.endIP, meta.excludeIPs,
          GetRemoteSubnetType rs == NetworkType.Overlay⟩],
        by simp [setRouterManager_trace, emit_trace], by simp [stageTailEvent, hver]⟩

theorem processRemoteSubnets_trace (env : Env) (remotes : List RemoteSubnet)
    (s : HubState) :
    ∃ t, (processRemoteSubnets env remotes s).2.trace = s.trace ++ t ∧
      t.all stageTailEvent = true := by
  induction remotes generalizing s with
  | nil => exact ⟨[], by simp [processRemoteSubnets], rfl⟩
  | cons rs rest ih =>
    obtain ⟨t1, ht1, ha1⟩ := processRemoteSubnet_trace env rs s
    cases hr : processRemoteSubnet env rs s with
    | mk res s1 =>
      rw [hr] at ht1
      cases res with
      | error e =>
        refine ⟨t1, ?_, ha1⟩
        simp only [processRemoteSubnets, hr]
        exact ht1
      | ok u =>
        obtain ⟨t2, ht2, ha2⟩ := ih s1
        refine ⟨t1 ++ t2, ?_, ?_⟩
        · simp only [processRemoteSubnets, hr]
          rw [ht2, show s1.trace = s.trace ++ t1 from ht1, List.append_assoc]
        · simp [List.all_append, ha1, ha2]

theorem stagePass_listErr (env : Env) (cfg : DaemonConfig) (v4 v6 : RouteManager)
    (e : String) (h : env.subnetList = .error e) :
    stagePass env cfg v4 v6 =
      (.error ("failed to list subnet " ++ e), ⟨v4, v6, [.listSubnets]⟩) := by
  simp [stagePass, h, emit]

theorem stagePass_ok_unfold (env : Env) (cfg : DaemonConfig) (v4 v6 : RouteManager)
    (items : List Subnet) (h : env.subnetList = .ok items) :
    stagePass env cfg v4 v6 =
      (match processSubnets env cfg items
          ⟨v4.ResetInfos, v6.ResetInfos,
            [.listSubnets, .resetInfos .v4, .resetInfos .v6]⟩ with
      | (.error e, s3) => (.error e, s3)
      | (.ok _, s3) =>
        if env.multiClusterEnabled then
          match env.remoteSubnetList with
          | .error e =>
            (.error ("failed to list remote subnet " ++ e), emit s3 .listRemoteSubnets)
          | .ok remotes => processRemoteSubnets env remotes (emit s3 .listRemoteSubnets)
        else
          (.ok (), s3)) := by
  simp only [stagePass, h, emit]
  rfl

theorem stagePass_trace_ok (env : Env) (cfg : DaemonConfig) (v4 v6 : RouteManager)
    (items : List Subnet) (h : env.subnetList = .ok items) :
    ∃ t, (stagePass env cfg v4 v6).2.trace =
      Event.listSubnets :: Event.resetInfos .v4 :: Event.resetInfos .v6 :: t ∧
      t.all stageTailEvent = true ∧
      (env.multiClusterEnabled = false → t.all localStageEvent = true) := by
  rw [stagePass_ok_unfold env cfg v4 v6 items h]
  obtain ⟨t1, ht1, ha1⟩ := processSubnets_trace env cfg items
    ⟨v4.ResetInfos, v6.ResetInfos, [.listSubnets, .resetInfos .v4, .resetInfos .v6]⟩
  have ha1t : t1.all stageTailEvent = true := by
    rw [List.all_eq_true] at ha1 ⊢
    exact fun e he => localStageEvent_stageTail (ha1 e he)
  cases hr : processSubnets env cfg items
      ⟨v4.ResetInfos, v6.ResetInfos, [.listSubnets, .resetInfos .v4, .resetInfos .v6]⟩ with
  | mk res s3 =>
    rw [hr] at ht1
    cases res with
    | error e =>
      exact ⟨t1, ht1, ha1t, fun _ => ha1⟩
    | ok u =>
      cases hmc : env.multiClusterEnabled with
      | false =>
        simp only [hmc, if_neg]
        exact ⟨t1, ht1, ha1t, fun _ => ha1⟩
      | true =>
        simp only [hmc, if_pos]
        cases hrl : env.remoteSubnetList with
        | error e =>
          refine ⟨t1 ++ [.listRemoteSubnets], ?_, ?_, ?_⟩
          · simp only [emit_trace]
            rw [show s3.trace = Event.listSubnets :: Event.resetInfos .v4 ::
              Event.resetInfos .v6 :: t1 from ht1]
            simp
          · simp [List.all_append, ha1t, stageTailEvent]
          · intro hmc2
            exact Bool.noConfusion hmc2
        | ok remotes =>
          obtain ⟨t2, ht2, ha2⟩ := processRemoteSubnets_trace env remotes
            (emit s3 .listRemoteSubnets)
          refine ⟨t1 ++ [.listRemoteSubnets] ++ t2, ?_, ?_, ?_⟩
          · rw [ht2]
            simp only [emit_trace]
            rw [show s3.trace = Event.listSubnets :: Event.resetInfos .v4 ::
              Event.resetInfos .v6 :: t1 from ht1]
            simp
          · simp [List.all_append, ha1t, ha2, stageTailEvent]
          · intro hmc2
            exact Bool.noConfusion hmc2

theorem syncPass_v4Err (env : Env) (s : HubState) (e : String)
    (h4 : env.syncRoutesError .v4 = some e) :
    syncPass env s =
      (.error ("failed to sync ipv4 routes: " ++ e), emit s (.syncRoutes .v4)) := by
  simp [syncPass, h4]

theorem syncPass_checkErr (env : Env) (s : HubState) (e : String)
    (h4 : env.syncRoutesError .v4 = none) (hc : env.ipv6GlobalDisabled = .error e) :
    syncPass env s =
      (.error ("failed to check ipv6 global disabled: " ++ e), emit s (.syncRoutes .v4)) := by
  simp [syncPass, h4, hc]

theorem syncPass_disabled (env : Env) (s : HubState)
    (h4 : env.syncRoutesError .v4 = none) (hc : env.ipv6GlobalDisabled = .ok true) :
    syncPass env s =
      (.ok (), emit (emit s (.syncRoutes .v4)) .iptablesSyncTrigger) := by
  simp [syncPass, h4, hc]

theorem syncPass_enabled_v6Err (env : Env) (s : HubState) (e : String)
    (h4 : env.syncRoutesError .v4 = none) (hc : env.ipv6GlobalDisabled = .ok false)
    (h6 : env.syncRoutesError .v6 = some e) :
    syncPass env s =
      (.error ("failed to sync ipv6 routes: " ++ e),
        emit (emit s (.syncRoutes .v4)) (.syncRoutes .v6)) := by
  simp [syncPass, h4, hc, h6]

theorem syncPass_enabled_ok (env : Env) (s : HubState)
    (h4 : env.syncRoutesError .v4 = none) (hc : env.ipv6GlobalDisabled = .ok false)
    (h6 : env.syncRoutesError .v6 = none) :
    syncPass env s =
      (.ok (), emit (emit (emit s (.syncRoutes .v4)) (.syncRoutes .v6))
        .iptablesSyncTrigger) := by
  simp [syncPass, h4, hc, h6]

theorem stagePass_filter_sync (env : Env) (cfg : DaemonConfig) (v4 v6 : RouteManager) :
    (stagePass env cfg v4 v6).2.trace.filter isSyncEvent = [] := by
  cases h : env.subnetList with
  | error e =>
    rw [stagePass_listErr env cfg v4 v6 e h]
    rfl
  | ok items =>
    obtain ⟨t, ht, hall, _⟩ := stagePass_trace_ok env cfg v4 v6 items h
    rw [ht]
    have hnil := all_imp_filter_nil hall (fun e he => stageTail_not_sync he)
    simp [List.filter_cons, isSyncEvent, hnil]

theorem stagePass_no_syncEvent (env : Env) (cfg : DaemonConfig) (v4 v6 : RouteManager)
    (v : IPVersion) : Event.syncRoutes v ∉ (stagePass env cfg v4 v6).2.trace := by
  intro hmem
  have : Event.syncRoutes v ∈ (stagePass env cfg v4 v6).2.trace.filter isSyncEvent := by
    rw [List.mem_filter]
    exact ⟨hmem, rfl⟩
  rw [stagePass_filter_sync] at this
  cases this

theorem syncPass_managers (env : Env) (s : HubState) :
    (syncPass env s).2.routeV4Manager = s.routeV4Manager ∧
    (syncPass env s).2.routeV6Manager = s.routeV6Manager := by
  cases h4 : env.syncRoutesError .v4 with
  | some e => rw [syncPass_v4Err env s e h4]; exact ⟨rfl, rfl⟩
  | none =>
    cases hc : env.ipv6GlobalDisabled with
    | error e => rw [syncPass_checkErr env s e h4 hc]; exact ⟨rfl, rfl⟩
    | ok b =>
      cases b with
      | true => rw [syncPass_disabled env s h4 hc]; exact ⟨rfl, rfl⟩
      | false =>
        cases h6 : env.syncRoutesError .v6 with
        | some e => rw [syncPass_enabled_v6Err env s e h4 hc h6]; exact ⟨rfl, rfl⟩
        | none => rw [syncPass_enabled_ok env s h4 hc h6]; exact ⟨rfl, rfl⟩

theorem wellVersioned_AddSubnetInfo {m : RouteManager} {info : SubnetInfo} {v : IPVersion}
    (hm : wellVersioned m v = true) (hi : info.subnetCidr.version = v) :
    wellVersioned (m.AddSubnetInfo info) v = true := by
  simp only [wellVersioned, RouteManager.AddSubnetInfo, List.all_append, List.all_cons,
    List.all_nil, Bool.and_eq_true] at *
  exact ⟨⟨hm.1, by simp [hi], trivial⟩, hm.2⟩

theorem wellVersioned_appendRemote {m : RouteManager} {info : RemoteSubnetInfo} {v : IPVersion}
    (hm : wellVersioned m v = true) (hi : info.subnetCidr.version = v) :
    wellVersioned { m with remoteSubnetInfos := m.remoteSubnetInfos ++ [info] } v = true := by
  simp only [wellVersioned, List.all_append, List.all_cons, List.all_nil,
    Bool.and_eq_true] at *
  exact ⟨hm.1, hm.2, by simp [hi], trivial⟩

theorem processSubnet_wellVersioned (env : Env) (cfg : DaemonConfig) (subnet : Subnet)
    (s : HubState)
    (h4 : wellVersioned s.routeV4Manager .v4 = true)
    (h6 : wellVersioned s.routeV6Manager .v6 = true) :
    wellVersioned (processSubnet env cfg subnet s).2.routeV4Manager .v4 = true ∧
    wellVersioned (processSubnet env cfg subnet s).2.routeV6Manager .v6 = true := by
  cases hg : env.getNetwork subnet.network with
  | none =>
    rw [processSubnet_noNetwork env cfg subnet s hg]
    exact ⟨h4, h6⟩
  | some network =>
    cases hp : parseSubnetSpecRangeMeta subnet.range with
    | error e =>
      rw [processSubnet_parseErr env cfg subnet s network e hg hp]
      exact ⟨h4, h6⟩
    | ok meta =>
      have hver := parse_ok_version hp
      cases hT : GetNetworkType network with
      | Underlay =>
        cases hu : computeIsUnderlayOnHost network cfg.nodeName with
        | true =>
          cases hv : env.vlanIfError cfg.nodeVlanIfName
              (resolveNetID subnet.netID network.netID) with
          | some e =>
            rw [processSubnet_underlay_local_vlanErr env cfg subnet s network meta e
              hg hp hT hu hv]
            exact ⟨h4, h6⟩
          | none =>
            rw [processSubnet_underlay_local_ok env cfg subnet s network meta hg hp hT hu hv]
            cases hver2 : subnet.range.version with
            | v4 =>
              rw [hver2] at hver
              constructor
              · simpa [setRouterManager, getRouterManager, emit] using
                  wellVersioned_AddSubnetInfo h4 hver
              · simpa [setRouterManager, getRouterManager, emit] using h6
            | v6 =>
              rw [hver2] at hver
              constructor
              · simpa [setRouterManager, getRouterManager, emit] using h4
              · simpa [setRouterManager, getRouterManager, emit] using
                  wellVersioned_AddSubnetInfo h6 hver
        | false =>
          rw [processSubnet_underlay_nonlocal env cfg subnet s network meta hg hp hT hu]
          cases hver2 : subnet.range.version with
          | v4 =>
            rw [hver2] at hver
            constructor
            · simpa [setRouterManager, getRouterManager, emit] using
                wellVersioned_AddSubnetInfo h4 hver
            · simpa [setRouterManager, getRouterManager, emit] using h6
          | v6 =>
            rw [hver2] at hver
            constructor
            · simpa [setRouterManager, getRouterManager, emit] using h4
            · simpa [setRouterManager, getRouterManager, emit] using
                wellVersioned_AddSubnetInfo h6 hver
      | Overlay =>
        cases hx : GenerateVxlanNetIfName cfg.nodeVxlanIfName
            (resolveNetID subnet.netID network.netID) with
        | error e =>
          rw [processSubnet_overlay_nameErr env cfg subnet s network meta e hg hp hT hx]
          exact ⟨h4, h6⟩
        | ok name =>
          rw [processSubnet_overlay_ok env cfg subnet s network meta name hg hp hT hx]
          cases hver2 : subnet.range.version with
          | v4 =>
            rw [hver2] at hver
            constructor
            · simpa [setRouterManager, getRouterManager, emit] using
                wellVersioned_AddSubnetInfo h4 hver
            · simpa [setRouterManager, getRouterManager, emit] using h6
          | v6 =>
            rw [hver2] at hver
            constructor
            · simpa [setRouterManager, getRouterManager, emit] using h4
            · simpa [setRouterManager, getRouterManager, emit] using
                wellVersioned_AddSubnetInfo h6 hver

theorem processSubnets_wellVersioned (env : Env) (cfg : DaemonConfig) (items : List Subnet)
    (s : HubState)
    (h4 : wellVersioned s.routeV4Manager .v4 = true)
    (h6 : wellVersioned s.routeV6Manager .v6 = true) :
    wellVersioned (processSubnets env cfg items s).2.routeV4Manager .v4 = true ∧
    wellVersioned (processSubnets env cfg items s).2.routeV6Manager .v6 = true := by
  induction items generalizing s with
  | nil => exact ⟨h4, h6⟩
  | cons subnet rest ih =>
    obtain ⟨k4, k6⟩ := processSubnet_wellVersioned env cfg subnet s h4 h6
    cases hr : processSubnet env cfg subnet s with
    | mk res s1 =>
      rw [hr] at k4 k6
      cases res with
      | error e =>
        simp only [processSubnets, hr]
        exact ⟨k4, k6⟩
      | ok u =>
        simp only [processSubnets, hr]
        exact ih s1 k4 k6

theorem processRemoteSubnet_wellVersioned (env : Env) (rs : RemoteSubnet) (s : HubState)
    (h4 : wellVersioned s.routeV4Manager .v4 = true)
    (h6 : wellVersioned s.routeV6Manager .v6 = true) :
    wellVersioned (processRemoteSubnet env rs s).2.routeV4Manager .v4 = true ∧
    wellVersioned (processRemoteSubnet env rs s).2.routeV6Manager .v6 = true := by
  cases hp : parseSubnetSpecRangeMeta rs.range with
  | error e =>
    rw [processRemoteSubnet_parseErr env rs s e hp]
    exact ⟨h4, h6⟩
  | ok meta =>
    have hver := parse_ok_version hp
    cases hc : (getRouterManager s rs.range.version).hasOverlapping meta.subnetCidr with
    | true =>
      rw [processRemoteSubnet_conflict env rs s meta hp hc]
      exact ⟨h4, h6⟩
    | false =>
      rw [processRemoteSubnet_ok env rs s meta hp hc]
      cases hver2 : rs.range.version with
      | v4 =>
        rw [hver2] at hver
        constructor
        · simpa [setRouterManager, getRouterManager, emit] using
            wellVersioned_appendRemote h4 hver
        · simpa [setRouterManager, getRouterManager, emit] using h6
      | v6 =>
        rw [hver2] at hver
        constructor
        · simpa [setRouterManager, getRouterManager, emit] using h4
        · simpa [setRouterManager, getRouterManager, emit] using
            wellVersioned_appendRemote h6 hver

theorem processRemoteSubnets_wellVersioned (env : Env) (remotes : List RemoteSubnet)
    (s : HubState)
    (h4 : wellVersioned s.routeV4Manager .v4 = true)
    (h6 : wellVersioned s.routeV6Manager .v6 = true) :
    wellVersioned (processRemoteSubnets env remotes s).2.routeV4Manager .v4 = true ∧
    wellVersioned (processRemoteSubnets env remotes s).2.routeV6Manager .v6 = true := by
  induction remotes generalizing s with
  | nil => exact ⟨h4, h6⟩
  | cons rs rest ih =>
    obtain ⟨k4, k6⟩ := processRemoteSubnet_wellVersioned env rs s h4 h6
    cases hr : processRemoteSubnet env rs s with
    | mk res s1 =>
      rw [hr] at k4 k6
      cases res with
      | error e =>
        simp only [processRemoteSubnets, hr]
        exact ⟨k4, k6⟩
      | ok u =>
        simp only [processRemoteSubnets, hr]
        exact ih s1 k4 k6

theorem stagePass_wellVersioned (env : Env) (cfg : DaemonConfig) (v4 v6 : RouteManager)
    (h4 : wellVersioned v4 .v4 = true) (h6 : wellVersioned v6 .v6 = true) :
    wellVersioned (stagePass env cfg v4 v6).2.routeV4Manager .v4 = true ∧
    wellVersioned (stagePass env cfg v4 v6).2.routeV6Manager .v6 = true := by
  cases h : env.subnetList with
  | error e =>
    rw [stagePass_listErr env cfg v4 v6 e h]
    exact ⟨h4, h6⟩
  | ok items =>
    rw [stagePass_ok_unfold env cfg v4 v6 items h]
    obtain ⟨k4, k6⟩ := processSubnets_wellVersioned env cfg items
      ⟨v4.ResetInfos, v6.ResetInfos, [.listSubnets, .resetInfos .v4, .resetInfos .v6]⟩
      rfl rfl
    cases hr : processSubnets env cfg items
        ⟨v4.ResetInfos, v6.ResetInfos, [.listSubnets, .resetInfos .v4, .resetInfos .v6]⟩ with
    | mk res s3 =>
      rw [hr] at k4 k6
      cases res with
      | error e => exact ⟨k4, k6⟩
      | ok u =>
        cases hmc : env.multiClusterEnabled with
        | false => exact ⟨k4, k6⟩
        | true =>
          cases hrl : env.remoteSubnetList with
          | error e => exact ⟨k4, k6⟩
          | ok remotes =>
            exact processRemoteSubnets_wellVersioned env remotes
              (emit s3 .listRemoteSubnets) k4 k6

theorem Reconcile_wellVersioned (env : Env) (cfg : DaemonConfig) (v4 v6 : RouteManager)
    (h4 : wellVersioned v4 .v4 = true) (h6 : wellVersioned v6 .v6 = true) :
    wellVersioned (Reconcile env cfg v4 v6).2.routeV4Manager .v4 = true ∧
    wellVersioned (Reconcile env cfg v4 v6).2.routeV6Manager .v6 = true := by
  obtain ⟨k4, k6⟩ := stagePass_wellVersioned env cfg v4 v6 h4 h6
  cases hr : stagePass env cfg v4 v6 with
  | mk res s =>
    rw [hr] at k4 k6
    cases res with
    | error e =>
      simp only [Reconcile, hr]
      exact ⟨k4, k6⟩
    | ok u =>
      obtain ⟨m4, m6⟩ := syncPass_managers env s
      cases hs : syncPass env s with
      | mk res2 s1 =>
        rw [hs] at m4 m6
        cases res2 with
        | error e =>
          simp only [Reconcile, hr, hs]
          rw [show s1.routeV4Manager = s.routeV4Manager from m4,
            show s1.routeV6Manager = s.routeV6Manager from m6]
          exact ⟨k4, k6⟩
        | ok u2 =>
          simp only [Reconcile, hr, hs]
          rw [show s1.routeV4Manager = s.routeV4Manager from m4,
            show s1.routeV6Manager = s.routeV6Manager from m6]
          exact ⟨k4, k6⟩

theorem stagePass_addConsistent (env : Env) (cfg : DaemonConfig) (v4 v6 : RouteManager) :
    (stagePass env cfg v4 v6).2.trace.all addConsistent = true := by
  cases h : env.subnetList with
  | error e =>
    rw [stagePass_listErr env cfg v4 v6 e h]
    rfl
  | ok items =>
    obtain ⟨t, ht, hall, _⟩ := stagePass_trace_ok env cfg v4 v6 items h
    rw [ht]
    simp only [List.all_cons, Bool.and_eq_true]
    refine ⟨rfl, rfl, rfl, ?_⟩
    rw [List.all_eq_true] at hall ⊢
    exact fun e he => stageTail_addConsistent (hall e he)

theorem Reconcile_addConsistent (env : Env) (cfg : DaemonConfig) (v4 v6 : RouteManager) :
    (Reconcile env cfg v4 v6).2.trace.all addConsistent = true := by
  have hst := stagePass_addConsistent env cfg v4 v6
  cases hr : stagePass env cfg v4 v6 with
  | mk res s =>
    rw [hr] at hst
    cases res with
    | error e =>
      simp only [Reconcile, hr]
      exact hst
    | ok u =>
      simp only [Reconcile, hr]
      cases h4 : env.syncRoutesError .v4 with
      | some e =>
        rw [syncPass_v4Err env s e h4]
        simp [emit_trace, List.all_append, hst, addConsistent]
      | none =>
        cases hc : env.ipv6GlobalDisabled with
        | error e =>
          rw [syncPass_checkErr env s e h4 hc]
          simp [emit_trace, List.all_append, hst, addConsistent]
        | ok b =>
          cases b with
          | true =>
            rw [syncPass_disabled env s h4 hc]
            simp [emit_trace, List.all_append, hst, addConsistent]
          | false =>
            cases h6 : env.syncRoutesError .v6 with
            | some e =>
              rw [syncPass_enabled_v6Err env s e h4 hc h6]
              simp [emit_trace, List.all_append, hst, addConsistent]
            | none =>
              rw [syncPass_enabled_ok env s h4 hc h6]
              simp [emit_trace, List.all_append, hst, addConsistent]

/-- Concrete daemon configuration used by the closed instances below. -/
def cfg0 : DaemonConfig := ⟨"node-1", "eth0", "vxlan0"⟩

/-- An empty Route Manager. -/
def rm0 : RouteManager := ⟨[], []⟩

/-- The range 10.0.0.0/24, gateway 10.0.0.1, start 10.0.0.10, end 10.0.0.200. -/
def rangeA : SubnetSpecRange := ⟨.v4, 167772160, 24, 167772161, 167772170, 167772360, []⟩

/-- The parse result of `rangeA`. -/
def metaA : ParsedRangeMeta := ⟨⟨.v4, 167772160, 24⟩, 167772161, 167772170, 167772360, [], .v4⟩

/-- An underlay network with node list ["node-1"] and netID 10. -/
def netU : Network := ⟨"net-u", some 10, .Underlay, ["node-1"]⟩

/-- An overlay network with netID 7. -/
def netO : Network := ⟨"net-o", some 7, .Overlay, []⟩

/-- A subnet of the underlay network, with the NAT flag set. -/
def subU : Subnet := ⟨"subnet-u", "net-u", none, rangeA, true⟩

/-- A subnet of the overlay network, with the NAT flag set. -/
def subO : Subnet := ⟨"subnet-o", "net-o", none, rangeA, true⟩

/-- An environment whose subnet listing fails. -/
def envListErr : Env :=
  ⟨.error "boom", fun _ => none, false, .ok [], fun _ _ => none, .ok true, fun _ => none⟩

/-- An environment holding the underlay subnet, no federation, IPv6
disabled, and no kernel failures. -/
def envU : Env :=
  ⟨.ok [subU], fun n => if n == "net-u" then some netU else none, false, .ok [],
    fun _ _ => none, .ok true, fun _ => none⟩

/-- An environment holding the overlay subnet, no federation, IPv6
disabled, and no kernel failures. -/
def envO : Env :=
  ⟨.ok [subO], fun n => if n == "net-o" then some netO else none, false, .ok [],
    fun _ _ => none, .ok true, fun _ => none⟩

/-- C1: for every reconciliation pass, if any of the staging steps fails
(listing subnets, resolving a subnet's Network, parsing a range, ensuring
an underlay forwarding interface, listing remote subnets, or adding a
remote subnet info), the pass aborts with an error requesting retry
(`Requeue = true`) and `SyncRoutes` is never invoked on either Route
Manager in that pass; conversely a `SyncRoutes` invocation in the trace
implies the whole staging phase succeeded. -/
theorem spec_C1 (env : Env) (cfg : DaemonConfig) (v4 v6 : RouteManager) :
    (∀ e, (stagePass env cfg v4 v6).1 = .error e →
      (Reconcile env cfg v4 v6).1 = ({ requeue := true }, some e) ∧
      (Reconcile env cfg v4 v6).2.trace.filter isSyncEvent = []) ∧
    ((Reconcile env cfg v4 v6).2.trace.filter isSyncEvent ≠ [] →
      (stagePass env cfg v4 v6).1 = .ok ()) := by
  have hfs := stagePass_filter_sync env cfg v4 v6
  cases hr : stagePass env cfg v4 v6 with
  | mk res s =>
    rw [hr] at hfs
    cases res with
    | error e0 =>
      constructor
      · intro e he
        have he2 : e0 = e := by simpa using he
        subst he2
        constructor
        · simp [Reconcile, hr]
        · simp only [Reconcile, hr]
          exact hfs
      · intro hne
        exfalso
        apply hne
        simp only [Reconcile, hr]
        exact hfs
    | ok u =>
      constructor
      · intro e he
        simp at he
      · intro _
        cases u
        rfl

/-- C1 witness: a pass whose subnet listing fails aborts with the listing
error, requeues, and never reaches `SyncRoutes`. -/
theorem spec_C1_witness :
    (stagePass envListErr cfg0 rm0 rm0).1 = .error ("failed to list subnet " ++ "boom") ∧
    (Reconcile envListErr cfg0 rm0 rm0).1 =
      ({ requeue := true }, some ("failed to list subnet " ++ "boom")) ∧
    (Reconcile envListErr cfg0 rm0 rm0).2.trace.filter isSyncEvent = [] := by
  have h := (spec_C1 envListErr cfg0 rm0 rm0).1 ("failed to list subnet " ++ "boom") rfl
  exact ⟨rfl, h.1, h.2⟩

/-- C2: the derived `isUnderlayOnHost` flag is true iff the referenced
Network's type is Underlay and the reconciling node's name appears in the
Network's node list; for an Overlay network it is always false. -/
theorem spec_C2 (network : Network) (nodeName : String) :
    (computeIsUnderlayOnHost network nodeName = true ↔
      GetNetworkType network = .Underlay ∧ nodeName ∈ network.nodeList) ∧
    (GetNetworkType network = .Overlay → computeIsUnderlayOnHost network nodeName = false) := by
  cases hT : GetNetworkType network with
  | Underlay =>
    constructor
    · simp [computeIsUnderlayOnHost, hT]
    · intro h
      exact NetworkType.noConfusion h
  | Overlay =>
    constructor
    · simp [computeIsUnderlayOnHost, hT]
    · intro _
      simp [computeIsUnderlayOnHost, hT]

/-- C2 witness: on the concrete overlay network the flag is false. -/
theorem spec_C2_witness : computeIsUnderlayOnHost netO "node-1" = false :=
  (spec_C2 netO "node-1").2 rfl

/-- C3: the resolved netID equals the Subnet's own netID whenever it is
set, regardless of the Network's netID; when unset it equals the
Network's netID. -/
theorem spec_C3 (subnetNetID networkNetID : Option Nat) :
    (∀ v, subnetNetID = some v → resolveNetID subnetNetID networkNetID = some v) ∧
    (subnetNetID = none → resolveNetID subnetNetID networkNetID = networkNetID) := by
  constructor
  · intro v hv
    subst hv
    rfl
  · intro hn
    subst hn
    rfl

/-- C3 witness: both resolution cases at concrete values. -/
theorem spec_C3_witness :
    resolveNetID (some 5) (some 7) = some 5 ∧ resolveNetID none (some 7) = some 7 :=
  ⟨(spec_C3 (some 5) (some 7)).1 5 rfl, (spec_C3 none (some 7)).2 rfl⟩

/-- C4: in every pass that reaches the synchronization step (i.e. staging
succeeded), `SyncRoutes` is invoked on the IPv4 manager unconditionally;
the IPv6 manager is synced only if the capability check reports IPv6
enabled; when IPv6 is globally disabled the IPv6 sync is skipped and the
pass succeeds; a capability-check failure aborts the pass with an error. -/
theorem spec_C4 (env : Env) (cfg : DaemonConfig) (v4 v6 : RouteManager)
    (hstage : (stagePass env cfg v4 v6).1 = .ok ()) :
    Event.syncRoutes .v4 ∈ (Reconcile env cfg v4 v6).2.trace ∧
    (Event.syncRoutes .v6 ∈ (Reconcile env cfg v4 v6).2.trace →
      env.ipv6GlobalDisabled = .ok false) ∧
    (env.syncRoutesError .v4 = none → env.ipv6GlobalDisabled = .ok true →
      (Reconcile env cfg v4 v6).1 = ({ requeue := false }, none) ∧
      Event.syncRoutes .v6 ∉ (Reconcile env cfg v4 v6).2.trace) ∧
    (∀ e, env.syncRoutesError .v4 = none → env.ipv6GlobalDisabled = .error e →
      (Reconcile env cfg v4 v6).1 =
        ({ requeue := true }, some ("failed to check ipv6 global disabled: " ++ e))) := by
  have hnos6 := stagePass_no_syncEvent env cfg v4 v6 .v6
  cases hr : stagePass env cfg v4 v6 with
  | mk res s =>
    rw [hr] at hnos6
    rw [hr] at hstage
    cases res with
    | error e0 => exact Except.noConfusion hstage
    | ok u =>
      cases h4 : env.syncRoutesError .v4 with
      | some e0 =>
        have hR : Reconcile env cfg v4 v6 =
            (({ requeue := true }, some ("failed to sync ipv4 routes: " ++ e0)),
              emit s (.syncRoutes .v4)) := by
          simp only [Reconcile, hr, syncPass_v4Err env s e0 h4]
        rw [hR]
        refine ⟨by simp [emit_trace], ?_, ?_, ?_⟩
        · intro hmem
          simp only [emit_trace, List.mem_append, List.mem_singleton] at hmem
          rcases hmem with hmem | hmem
          · exact absurd hmem hnos6
          · exact Event.noConfusion hmem (fun hv => IPVersion.noConfusion hv)
        · intro h4none
          exact Option.noConfusion h4none
        · intro e2 h4none
          exact fun _ => Option.noConfusion h4none
      | none =>
        cases hc : env.ipv6GlobalDisabled with
        | error e0 =>
          have hR : Reconcile env cfg v4 v6 =
              (({ requeue := true },
                some ("failed to check ipv6 global disabled: " ++ e0)),
                emit s (.syncRoutes .v4)) := by
            simp only [Reconcile, hr, syncPass_checkErr env s e0 h4 hc]
          rw [hR]
          refine ⟨by simp [emit_trace], ?_, ?_, ?_⟩
          · intro hmem
            simp only [emit_trace, List.mem_append, List.mem_singleton] at hmem
            rcases hmem with hmem | hmem
            · exact absurd hmem hnos6
            · exact Event.noConfusion hmem (fun hv => IPVersion.noConfusion hv)
          · intro _ htrue
            exact Except.noConfusion htrue
          · intro e2 _ herr
            have he : e0 = e2 := by simpa using herr
            subst he
            rfl
        | ok b =>
          cases b with
          | true =>
            have hR : Reconcile env cfg v4 v6 =
                (({ requeue := false }, none),
                  emit (emit s (.syncRoutes .v4)) .iptablesSyncTrigger) := by
              simp only [Reconcile, hr, syncPass_disabled env s h4 hc]
            rw [hR]
            refine ⟨by simp [emit_trace], ?_, ?_, ?_⟩
            · intro hmem
              simp only [emit_trace, List.mem_append, List.mem_singleton] at hmem
              rcases hmem with (hmem | hmem) | hmem
              · exact absurd hmem hnos6
              · exact Event.noConfusion hmem (fun hv => IPVersion.noConfusion hv)
              · exact Event.noConfusion hmem
            · intro _ _
              refine ⟨rfl, ?_⟩
              intro hmem
              simp only [emit_trace, List.mem_append, List.mem_singleton] at hmem
              rcases hmem with (hmem | hmem) | hmem
              · exact absurd hmem hnos6
              · exact Event.noConfusion hmem (fun hv => IPVersion.noConfusion hv)
              · exact Event.noConfusion hmem
            · intro e2 _ herr
              exact Except.noConfusion herr
          | false =>
            cases h6 : env.syncRoutesError .v6 with
            | some e0 =>
              have hR : Reconcile env cfg v4 v6 =
                  (({ requeue := true }, some ("failed to sync ipv6 routes: " ++ e0)),
                    emit (emit s (.syncRoutes .v4)) (.syncRoutes .v6)) := by
                simp only [Reconcile, hr, syncPass_enabled_v6Err env s e0 h4 hc h6]
              rw [hR]
              refine ⟨by simp [emit_trace], fun _ => rfl, ?_, ?_⟩
              · intro _ htrue
                exact absurd htrue (by simp)
              · intro e2 _ herr
                exact Except.noConfusion herr
            | none =>
              have hR : Reconcile env cfg v4 v6 =
                  (({ requeue := false }, none),
                    emit (emit (emit s (.syncRoutes .v4)) (.syncRoutes .v6))
                      .iptablesSyncTrigger) := by
                simp only [Reconcile, hr, syncPass_enabled_ok env s h4 hc h6]
              rw [hR]
              refine ⟨by simp [emit_trace], fun _ => rfl, ?_, ?_⟩
              · intro _ htrue
                exact absurd htrue (by simp)
              · intro e2 _ herr
                exact Except.noConfusion herr

/-- C4 witness: with staging succeeding and IPv6 globally disabled, the
IPv4 sync happens, the pass succeeds, and the IPv6 sync is skipped. -/
theorem spec_C4_witness :
    Event.syncRoutes .v4 ∈ (Reconcile envU cfg0 rm0 rm0).2.trace ∧
    (Reconcile envU cfg0 rm0 rm0).1 = ({ requeue := false }, none) ∧
    Event.syncRoutes .v6 ∉ (Reconcile envU cfg0 rm0 rm0).2.trace := by
  have h := spec_C4 envU cfg0 rm0 rm0 rfl
  exact ⟨h.1, (h.2.2.1 rfl rfl).1, (h.2.2.1 rfl rfl).2⟩

/-- C5: every SubnetInfo and RemoteSubnetInfo is added to the Route
Manager selected by its range's IP version, so the two managers never mix
families: every add event targets the manager of the record's family, and
the managers stay well-versioned across the whole pass. -/
theorem spec_C5 (env : Env) (cfg : DaemonConfig) (v4 v6 : RouteManager)
    (h4 : wellVersioned v4 .v4 = true) (h6 : wellVersioned v6 .v6 = true) :
    (∀ ver info, Event.addSubnetInfo ver info ∈ (Reconcile env cfg v4 v6).2.trace →
      info.subnetCidr.version = ver) ∧
    (∀ ver rinfo, Event.addRemoteSubnetInfo ver rinfo ∈ (Reconcile env cfg v4 v6).2.trace →
      rinfo.subnetCidr.version = ver) ∧
    wellVersioned (Reconcile env cfg v4 v6).2.routeV4Manager .v4 = true ∧
    wellVersioned (Reconcile env cfg v4 v6).2.routeV6Manager .v6 = true := by
  have hall := Reconcile_addConsistent env cfg v4 v6
  rw [List.all_eq_true] at hall
  obtain ⟨w4, w6⟩ := Reconcile_wellVersioned env cfg v4 v6 h4 h6
  refine ⟨?_, ?_, w4, w6⟩
  · intro ver info hmem
    have hc := hall _ hmem
    simpa [addConsistent] using hc
  · intro ver rinfo hmem
    have hc := hall _ hmem
    simpa [addConsistent] using hc

/-- C5 witness: the concrete pass leaves both managers well-versioned. -/
theorem spec_C5_witness :
    wellVersioned (Reconcile envU cfg0 rm0 rm0).2.routeV4Manager .v4 = true ∧
    wellVersioned (Reconcile envU cfg0 rm0 rm0).2.routeV6Manager .v6 = true := by
  have h := spec_C5 envU cfg0 rm0 rm0 rfl rfl
  exact ⟨h.2.2.1, h.2.2.2⟩

/-- Events the synchronization phase may append. -/
def syncPhaseEvent : Event → Bool
  | .syncRoutes _ => true
  | .iptablesSyncTrigger => true
  | _ => false

theorem syncPass_trace (env : Env) (s : HubState) :
    ∃ t, (syncPass env s).2.trace = s.trace ++ t ∧ t.all syncPhaseEvent = true := by
  cases h4 : env.syncRoutesError .v4 with
  | some e =>
    rw [syncPass_v4Err env s e h4]
    exact ⟨[.syncRoutes .v4], by simp [emit_trace], rfl⟩
  | none =>
    cases hc : env.ipv6GlobalDisabled with
    | error e =>
      rw [syncPass_checkErr env s e h4 hc]
      exact ⟨[.syncRoutes .v4], by simp [emit_trace], rfl⟩
    | ok b =>
      cases b with
      | true =>
        rw [syncPass_disabled env s h4 hc]
        exact ⟨[.syncRoutes .v4, .iptablesSyncTrigger], by simp [emit_trace], rfl⟩
      | false =>
        cases h6 : env.syncRoutesError .v6 with
        | some e =>
          rw [syncPass_enabled_v6Err env s e h4 hc h6]
          exact ⟨[.syncRoutes .v4, .syncRoutes .v6], by simp [emit_trace], rfl⟩
        | none =>
          rw [syncPass_enabled_ok env s h4 hc h6]
          exact ⟨[.syncRoutes .v4, .syncRoutes .v6, .iptablesSyncTrigger],
            by simp [emit_trace], rfl⟩

theorem syncPhase_not_remote {e : Event} (h : syncPhaseEvent e = true) :
    isRemoteEvent e = false := by
  cases e <;> simp_all [syncPhaseEvent, isRemoteEvent]

theorem syncPhase_not_reset {e : Event} (h : syncPhaseEvent e = true) :
    isResetEvent e = false := by
  cases e <;> simp_all [syncPhaseEvent, isResetEvent]

/-- A federation-enabled peer record used in closed instances. -/
def remA : RemoteSubnet := ⟨"remote-a", rangeA, .Overlay⟩

/-- The SubnetInfo the underlay pass registers for `subU` on node-1. -/
def infoU : SubnetInfo :=
  ⟨⟨.v4, 167772160, 24⟩, 167772161, 167772170, 167772360, [], "eth0.10", false, false, true⟩

/-- A federation-enabled environment whose remote subnet overlaps `subU`. -/
def envMC : Env :=
  ⟨.ok [subU], fun n => if n == "net-u" then some netU else none, true, .ok [remA],
    fun _ _ => none, .ok true, fun _ => none⟩

/-- C6: remote subnets are listed and registered only when multi-cluster
federation is enabled; an `AddRemoteSubnetInfo` call for a record whose
CIDR overlaps an already-registered entry fails the step with
`RemoteSubnetConflict`; and a staging failure (in particular a remote
registration failure) aborts the pass before any `SyncRoutes` call. -/
theorem spec_C6 (env : Env) (cfg : DaemonConfig) (v4 v6 : RouteManager) :
    (env.multiClusterEnabled = false →
      (Reconcile env cfg v4 v6).2.trace.filter isRemoteEvent = []) ∧
    (∀ rs s meta, parseSubnetSpecRangeMeta rs.range = .ok meta →
      (getRouterManager s rs.range.version).hasOverlapping meta.subnetCidr = true →
      (processRemoteSubnet env rs s).1 =
        .error ("failed to add remote subnet info: " ++ "RemoteSubnetConflict")) ∧
    (∀ e, (stagePass env cfg v4 v6).1 = .error e →
      (Reconcile env cfg v4 v6).1 = ({ requeue := true }, some e) ∧
      (Reconcile env cfg v4 v6).2.trace.filter isSyncEvent = []) := by
  refine ⟨?_, ?_, ?_⟩
  · intro hmc
    have hstageRem : (stagePass env cfg v4 v6).2.trace.filter isRemoteEvent = [] := by
      cases h : env.subnetList with
      | error e =>
        rw [stagePass_listErr env cfg v4 v6 e h]
        rfl
      | ok items =>
        obtain ⟨t, ht, _, hloc⟩ := stagePass_trace_ok env cfg v4 v6 items h
        rw [ht]
        have hnil := all_imp_filter_nil (hloc hmc) (fun e he => localStage_not_remote he)
        simp [List.filter_cons, isRemoteEvent, hnil]
    cases hr : stagePass env cfg v4 v6 with
    | mk res s =>
      rw [hr] at hstageRem
      cases res with
      | error e =>
        simp only [Reconcile, hr]
        exact hstageRem
      | ok u =>
        simp only [Reconcile, hr]
        obtain ⟨t2, ht2, ha2⟩ := syncPass_trace env s
        have hnil2 := all_imp_filter_nil ha2 (fun e he => syncPhase_not_remote he)
        cases hs : syncPass env s with
        | mk res2 s1 =>
          rw [hs] at ht2
          cases res2 with
          | error e =>
            show s1.trace.filter isRemoteEvent = []
            rw [show s1.trace = s.trace ++ t2 from ht2]
            simp [List.filter_append, hstageRem, hnil2]
          | ok u2 =>
            show s1.trace.filter isRemoteEvent = []
            rw [show s1.trace = s.trace ++ t2 from ht2]
            simp [List.filter_append, hstageRem, hnil2]
  · intro rs s meta hp hc
    rw [processRemoteSubnet_conflict env rs s meta hp hc]
  · have hfs := stagePass_filter_sync env cfg v4 v6
    cases hr : stagePass env cfg v4 v6 with
    | mk res s =>
      rw [hr] at hfs
      cases res with
      | error e0 =>
        intro e he
        have he2 : e0 = e := by simpa using he
        subst he2
        constructor
        · simp [Reconcile, hr]
        · simp only [Reconcile, hr]
          exact hfs
      | ok u =>
        intro e he
        exact absurd he (by simp)

/-- C6 witness: a remote subnet whose CIDR equals an already-registered
local subnet's CIDR is rejected with `RemoteSubnetConflict`. -/
theorem spec_C6_witness :
    (processRemoteSubnet envMC remA ⟨⟨[infoU], []⟩, rm0, []⟩).1 =
      .error ("failed to add remote subnet info: " ++ "RemoteSubnetConflict") :=
  (spec_C6 envMC cfg0 rm0 rm0).2.1 remA ⟨⟨[infoU], []⟩, rm0, []⟩ metaA rfl (by decide)

theorem getRouterManager_setRouterManager (s : HubState) (v : IPVersion) (m : RouteManager) :
    getRouterManager (setRouterManager s v m) v = m := by
  cases v <;> rfl

/-- C7: for every subnet whose Network has type Overlay, the registered
SubnetInfo has `isOverlay = true`, `autoNatOutgoing` equal to the subnet's
NAT flag, and a forward interface name computed by the pure
`GenerateVxlanNetIfName` from the base device and the resolved netID;
no interface-ensuring action is performed. -/
theorem spec_C7 (env : Env) (cfg : DaemonConfig) (subnet : Subnet) (network : Network)
    (s : HubState) (meta : ParsedRangeMeta) (name : String)
    (hg : env.getNetwork subnet.network = some network)
    (hT : GetNetworkType network = .Overlay)
    (hp : parseSubnetSpecRangeMeta subnet.range = .ok meta)
    (hx : GenerateVxlanNetIfName cfg.nodeVxlanIfName
      (resolveNetID subnet.netID network.netID) = .ok name) :
    (processSubnet env cfg subnet s).1 = .ok () ∧
    (processSubnet env cfg subnet s).2.trace = s.trace ++
      [.addSubnetInfo subnet.range.version
        ⟨meta.subnetCidr, meta.gatewayIP, meta.startIP, meta.endIP, meta.excludeIPs,
          name, IsSubnetAutoNatOutgoing subnet, true, false⟩] ∧
    getRouterManager (processSubnet env cfg subnet s).2 subnet.range.version =
      (getRouterManager s subnet.range.version).AddSubnetInfo
        ⟨meta.subnetCidr, meta.gatewayIP, meta.startIP, meta.endIP, meta.excludeIPs,
          name, IsSubnetAutoNatOutgoing subnet, true, false⟩ ∧
    (∀ b nid, Event.ensureVlanIf b nid ∈ (processSubnet env cfg subnet s).2.trace →
      Event.ensureVlanIf b nid ∈ s.trace) := by
  have hu : computeIsUnderlayOnHost network cfg.nodeName = false := by
    simp [computeIsUnderlayOnHost, hT]
  rw [processSubnet_overlay_ok env cfg subnet s network meta name hg hp hT hx]
  refine ⟨rfl, ?_, ?_, ?_⟩
  · simp [setRouterManager_trace, emit_trace, hu]
  · simp [getRouterManager_setRouterManager, getRouterManager_emit, hu]
  · intro b nid hmem
    simp only [setRouterManager_trace, emit_trace, List.mem_append,
      List.mem_singleton] at hmem
    rcases hmem with hmem | hmem
    · exact hmem
    · exact Event.noConfusion hmem

/-- C7 witness: the concrete overlay subnet yields exactly one registered
record with `isOverlay = true`, the subnet's NAT flag, and the synthesized
name "vxlan0.7". -/
theorem spec_C7_witness :
    (processSubnet envO cfg0 subO ⟨rm0, rm0, []⟩).1 = .ok () ∧
    (processSubnet envO cfg0 subO ⟨rm0, rm0, []⟩).2.trace =
      [.addSubnetInfo .v4
        ⟨metaA.subnetCidr, metaA.gatewayIP, metaA.startIP, metaA.endIP, metaA.excludeIPs,
          "vxlan0.7", true, true, false⟩] := by
  have h := spec_C7 envO cfg0 subO netO ⟨rm0, rm0, []⟩ metaA "vxlan0.7" rfl rfl rfl rfl
  refine ⟨h.1, ?_⟩
  have h2 := h.2.1
  simpa [subO, rangeA, IsSubnetAutoNatOutgoing] using h2

/-- A second node's configuration, identical to `cfg0` except the name. -/
def cfgN2 : DaemonConfig := ⟨"node-2", "eth0", "vxlan0"⟩

/-- C8 counterexample: the claim that a non-member node registers the
same SubnetInfo as a member node would except `isUnderlayLocal = false`
is false on the code: at this concrete input the two records also differ
in the forwarding interface name ("eth0.10" for the member node, empty
for the non-member). -/
theorem spec_C8_counterexample :
    (processSubnet envU cfgN2 subU ⟨rm0, rm0, []⟩).2.routeV4Manager.subnetInfos ≠
      ((processSubnet envU cfg0 subU ⟨rm0, rm0, []⟩).2.routeV4Manager.subnetInfos).map
        (fun i => { i with isUnderlayOnHost := false }) := by
  decide

/-- C8 (amended): when a node that is not in the underlay Network's node
list reconciles a subnet of that Network, it registers a SubnetInfo whose
fields agree with the member node's record except that `isUnderlayLocal`
is false and the forwarding interface name is empty, and it does not
attempt to create or ensure any forwarding interface. -/
theorem spec_C8 (env : Env) (cfgM cfgN : DaemonConfig) (subnet : Subnet)
    (network : Network) (s : HubState) (meta : ParsedRangeMeta)
    (hg : env.getNetwork subnet.network = some network)
    (hT : GetNetworkType network = .Underlay)
    (hp : parseSubnetSpecRangeMeta subnet.range = .ok meta)
    (hM : computeIsUnderlayOnHost network cfgM.nodeName = true)
    (hvM : env.vlanIfError cfgM.nodeVlanIfName (resolveNetID subnet.netID network.netID) = none)
    (hN : computeIsUnderlayOnHost network cfgN.nodeName = false) :
    (processSubnet env cfgM subnet s).2.trace = s.trace ++
      [.ensureVlanIf cfgM.nodeVlanIfName (resolveNetID subnet.netID network.netID),
       .addSubnetInfo subnet.range.version
         ⟨meta.subnetCidr, meta.gatewayIP, meta.startIP, meta.endIP, meta.excludeIPs,
           vlanIfName cfgM.nodeVlanIfName (resolveNetID subnet.netID network.netID),
           false, false, true⟩] ∧
    (processSubnet env cfgN subnet s).1 = .ok () ∧
    (processSubnet env cfgN subnet s).2.trace = s.trace ++
      [.addSubnetInfo subnet.range.version
        ⟨meta.subnetCidr, meta.gatewayIP, meta.startIP, meta.endIP, meta.excludeIPs,
          "", false, false, false⟩] := by
  refine ⟨?_, ?_, ?_⟩
  · rw [processSubnet_underlay_local_ok env cfgM subnet s network meta hg hp hT hM hvM]
    simp [setRouterManager_trace, emit_trace]
  · rw [processSubnet_underlay_nonlocal env cfgN subnet s network meta hg hp hT hN]
  · rw [processSubnet_underlay_nonlocal env cfgN subnet s network meta hg hp hT hN]
    simp [setRouterManager_trace, emit_trace]

/-- C8 witness: the amended statement at the concrete input of the
counterexample. -/
theorem spec_C8_witness :
    (processSubnet envU cfg0 subU ⟨rm0, rm0, []⟩).2.trace =
      [.ensureVlanIf "eth0" (some 10),
       .addSubnetInfo .v4
         ⟨metaA.subnetCidr, metaA.gatewayIP, metaA.startIP, metaA.endIP, metaA.excludeIPs,
           "eth0.10", false, false, true⟩] ∧
    (processSubnet envU cfgN2 subU ⟨rm0, rm0, []⟩).1 = .ok () ∧
    (processSubnet envU cfgN2 subU ⟨rm0, rm0, []⟩).2.trace =
      [.addSubnetInfo .v4
        ⟨metaA.subnetCidr, metaA.gatewayIP, metaA.startIP, metaA.endIP, metaA.excludeIPs,
          "", false, false, false⟩] := by
  have h := spec_C8 envU cfg0 cfgN2 subU netU ⟨rm0, rm0, []⟩ metaA rfl rfl rfl
    (by decide) rfl (by decide)
  refine ⟨?_, h.2.1, ?_⟩
  · have h1 := h.1
    simpa [subU, rangeA, cfg0, resolveNetID, netU, vlanIfName] using h1
  · have h2 := h.2.2
    simpa [subU, rangeA] using h2

/-- C9 counterexample: the claim that `ResetInfos` is called in every
reconciliation pass is false on the code: in a pass whose subnet listing
fails, the pass aborts before `ResetInfos` is ever invoked. -/
theorem spec_C9_counterexample :
    Event.resetInfos .v4 ∉ (Reconcile envListErr cfg0 rm0 rm0).2.trace := by
  decide

/-- C9 (amended): in every reconciliation pass whose initial subnet
listing succeeds, `ResetInfos` is called exactly once on each of the two
Route Managers, immediately after the listing and before any
`AddSubnetInfo` or `AddRemoteSubnetInfo` call of that pass. -/
theorem spec_C9 (env : Env) (cfg : DaemonConfig) (v4 v6 : RouteManager)
    (items : List Subnet) (h : env.subnetList = .ok items) :
    ∃ t, (Reconcile env cfg v4 v6).2.trace =
      Event.listSubnets :: Event.resetInfos .v4 :: Event.resetInfos .v6 :: t ∧
      t.filter isResetEvent = [] := by
  obtain ⟨t0, ht0, hall0, _⟩ := stagePass_trace_ok env cfg v4 v6 items h
  have hnil0 := all_imp_filter_nil hall0 (fun e he => stageTail_not_reset he)
  cases hr : stagePass env cfg v4 v6 with
  | mk res s =>
    rw [hr] at ht0
    cases res with
    | error e =>
      refine ⟨t0, ?_, hnil0⟩
      simp only [Reconcile, hr]
      exact ht0
    | ok u =>
      obtain ⟨t2, ht2, ha2⟩ := syncPass_trace env s
      have hnil2 := all_imp_filter_nil ha2 (fun e he => syncPhase_not_reset he)
      cases hs : syncPass env s with
      | mk res2 s1 =>
        rw [hs] at ht2
        refine ⟨t0 ++ t2, ?_, ?_⟩
        · have hs1 : s1.trace =
              Event.listSubnets :: Event.resetInfos .v4 :: Event.resetInfos .v6 ::
                (t0 ++ t2) := by
            rw [show s1.trace = s.trace ++ t2 from ht2,
              show s.trace = Event.listSubnets :: Event.resetInfos .v4 ::
                Event.resetInfos .v6 :: t0 from ht0]
            simp
          cases res2 with
          | error e =>
            simp only [Reconcile, hr, hs]
            exact hs1
          | ok u2 =>
            simp only [Reconcile, hr, hs]
            exact hs1
        · simp [List.filter_append, hnil0, hnil2]

/-- C9 witness: the amended statement at a concrete succeeding listing. -/
theorem spec_C9_witness :
    ∃ t, (Reconcile envU cfg0 rm0 rm0).2.trace =
      Event.listSubnets :: Event.resetInfos .v4 :: Event.resetInfos .v6 :: t ∧
      t.filter isResetEvent = [] :=
  spec_C9 envU cfg0 rm0 rm0 [subU] rfl

/-- C10: for every subnet whose Network has type Underlay, any SubnetInfo
registered for it has `isOverlay = false` and `autoNatOutgoing = false`,
regardless of the subnet's own NAT flag. -/
theorem spec_C10 (env : Env) (cfg : DaemonConfig) (subnet : Subnet) (network : Network)
    (s : HubState)
    (hg : env.getNetwork subnet.network = some network)
    (hT : GetNetworkType network = .Underlay) :
    ∀ v info, Event.addSubnetInfo v info ∈ (processSubnet env cfg subnet s).2.trace →
      Event.addSubnetInfo v info ∈ s.trace ∨
      (info.isOverlay = false ∧ info.autoNatOutgoing = false) := by
  intro v info hmem
  cases hp : parseSubnetSpecRangeMeta subnet.range with
  | error e =>
    rw [processSubnet_parseErr env cfg subnet s network e hg hp] at hmem
    exact Or.inl hmem
  | ok meta =>
    cases hu : computeIsUnderlayOnHost network cfg.nodeName with
    | true =>
      cases hv : env.vlanIfError cfg.nodeVlanIfName
          (resolveNetID subnet.netID network.netID) with
      | some e =>
        rw [processSubnet_underlay_local_vlanErr env cfg subnet s network meta e
          hg hp hT hu hv] at hmem
        simp only [emit_trace, List.mem_append, List.mem_singleton] at hmem
        rcases hmem with hmem | hmem
        · exact Or.inl hmem
        · exact Event.noConfusion hmem
      | none =>
        rw [processSubnet_underlay_local_ok env cfg subnet s network meta
          hg hp hT hu hv] at hmem
        simp only [setRouterManager_trace, emit_trace, List.mem_append,
          List.mem_singleton, List.append_assoc, List.mem_cons,
          List.not_mem_nil, or_false] at hmem
        rcases hmem with hmem | hmem | hmem
        · exact Or.inl hmem
        · exact Event.noConfusion hmem
        · rw [Event.addSubnetInfo.injEq] at hmem
          rw [hmem.2]
          exact Or.inr ⟨rfl, rfl⟩
    | false =>
      rw [processSubnet_underlay_nonlocal env cfg subnet s network meta hg hp hT hu] at hmem
      simp only [setRouterManager_trace, emit_trace, List.mem_append,
        List.mem_singleton] at hmem
      rcases hmem with hmem | hmem
      · exact Or.inl hmem
      · rw [Event.addSubnetInfo.injEq] at hmem
        rw [hmem.2]
        exact Or.inr ⟨rfl, rfl⟩

/-- C10 witness: the underlay subnet carries `autoNatOutgoing = true`,
yet its registered record has both flags false. -/
theorem spec_C10_witness :
    IsSubnetAutoNatOutgoing subU = true ∧
    infoU.isOverlay = false ∧ infoU.autoNatOutgoing = false := by
  have h := spec_C10 envU cfg0 subU netU ⟨rm0, rm0, []⟩ rfl rfl .v4 infoU (by decide)
  exact ⟨rfl, h.resolve_left (by decide)⟩
